import Mathlib

/-!
Verification development for the guitar recommendation pipeline
(`src/agents/enhanced_guitar_agent.py` together with the knowledge base
`src/knowledge/guitar_knowledge.py`).

The Python code is shallowly embedded:

* strings are handled on their character lists (`String.data`), with
  structural helpers mirroring Python `str.lower`, `str.split()`,
  `str.strip()` and the `in` substring operator;
* currency amounts are `Nat` (the source uses integer dollar amounts;
  the float multiplications by `0.8`, `1.2`, `(1 - f)`, `(1 + f)` are
  embedded as exact scaled integer divisions, and the comparison
  `overlap >= len * 0.6` as `10 * overlap >= 6 * len`, which agrees with
  the float comparison for all integer operands because `0.6 * n` is
  never within a float rounding error of a different integer);
* JSON dictionaries become structures with `Option` fields (a missing or
  `null` key is `none`; for `guitar_title` the falsy values missing /
  `None` / `""` are collapsed to `""`);
* calls to the text-generation client and the catalog source are
  modelled by an `Env` record holding the outcome (`Except`) of each
  external call, and Python `try/except` blocks become matches on those
  `Except` values.
-/

/-! ## Python string helpers -/

/-- Python `str.lower()` on a character list (ASCII, as used by the data). -/
def lowerChars (cs : List Char) : List Char := cs.map Char.toLower

/-- Helper for `pyWords`: Python `str.split()` with no argument, splitting on
whitespace runs and dropping empty pieces.  `acc` is the reversed current word. -/
def splitWs : List Char → List Char → List (List Char)
  | [], acc => if acc = [] then [] else [acc.reverse]
  | c :: cs, acc =>
      if c.isWhitespace then
        (if acc = [] then [] else [acc.reverse]) ++ splitWs cs []
      else splitWs cs (c :: acc)

/-- Python `s.lower().split()`: the list of whitespace-separated words of `s`,
lower-cased. -/
def pyWords (s : String) : List (List Char) := splitWs (lowerChars s.data) []

/-- Whether `cs` starts with `needle` (character-wise). -/
def startsWithCh : List Char → List Char → Bool
  | [], _ => true
  | _ :: _, [] => false
  | a :: as, b :: bs => a == b && startsWithCh as bs

/-- Python `needle in hay` on character lists: substring containment. -/
def containsCh (needle : List Char) : List Char → Bool
  | [] => startsWithCh needle []
  | c :: cs => startsWithCh needle (c :: cs) || containsCh needle cs

/-- Python `str.strip()`: drop whitespace at both ends. -/
def stripChars (cs : List Char) : List Char :=
  ((cs.dropWhile Char.isWhitespace).reverse.dropWhile Char.isWhitespace).reverse

/-- Python `s.lower().strip()`, the normalized lookup key used by the
knowledge-base matchers. -/
def pyKey (s : String) : List Char := stripChars (lowerChars s.data)

/-! ## Data model -/

/-- A catalog listing as produced by the scraper (`MockGuitarScraper` returns
dictionaries that always carry all six keys). -/
structure Guitar where
  title : String
  price : Nat
  condition : String
  image_url : String
  link : String
  source : String
  deriving DecidableEq

/-- One recommendation entry.  Before reconciliation only `guitar_title` and
`price` are set by the generator (`guitar_title = ""` models a missing, `None`
or empty — i.e. falsy — value); reconciliation may add the remaining keys. -/
structure RecEntry where
  guitar_title : String
  price : Nat
  title : Option String
  link : Option String
  image_url : Option String
  condition : Option String
  source : Option String
  deriving DecidableEq

/-- The `GuitarRecommendation` pydantic model of `src/models/guitar.py`. -/
structure GuitarRecommendation where
  user_analysis : String
  recommendations : List RecEntry
  market_insights : Option String
  alternative_suggestions : Option String
  deriving DecidableEq

/-- The parsed JSON analysis dict produced by `step1_analyze_user_intent`
(the fields consumed by the pipeline; budgets in whole dollars,
`budget_flexibility` and `confidence` in hundredths). -/
structure IntentAnalysis where
  budget_min : Option Nat
  budget_max : Option Nat
  budget_flexibility : Option Nat
  musical_style : Option String
  skill_level : Option String
  artist_reference : Option String
  guitar_type : Option String
  required_features : List String
  deriving DecidableEq

/-- The `search_params` dict assembled by `step2_determine_search_strategy`. -/
structure SearchParams where
  min_price : Nat
  max_price : Nat
  max_results : Nat
  brands : Option (List String)
  search_terms : Option (List String)
  deriving DecidableEq

/-- The parsed JSON recommendation payload of `step4_analyze_and_recommend`. -/
structure RecData where
  user_analysis : String
  recommendations : List RecEntry
  market_insights : Option String
  alternative_suggestions : Option String
  deriving DecidableEq

/-- A Python exception message. -/
abbrev PyErr := String

/-- Outcomes of the external calls made during one pipeline run: the
fast-model intent extraction (invoke + JSON parse + budget fields), the
main-model recommendation generation (invoke + JSON parse), and the two
scraper attempts of `step3_search_guitars`. -/
structure Env where
  intentResult : Except PyErr IntentAnalysis
  recResult : Except PyErr RecData
  searchResult : Except PyErr (List Guitar)
  searchRetryResult : Except PyErr (List Guitar)

/-- The explanation object assembled by `find_guitars_with_explanation`
(the fields the claims are about). -/
structure Explanation where
  guitars_found : Nat
  processing_complete : Bool
  error : Option PyErr
  deriving DecidableEq

/-! ## Knowledge base (`GuitarKnowledgeBase`) -/

/-- `ARTIST_GUITARS`, restricted to the `brands` field, the only one read by
`step2_determine_search_strategy`. -/
def ARTIST_GUITARS : List (String × List String) :=
  [("jimmy page", ["Gibson", "Epiphone", "Fender"]),
   ("david gilmour", ["Fender", "Gibson"]),
   ("jimi hendrix", ["Fender", "Gibson"]),
   ("eric clapton", ["Fender", "Gibson", "Martin"]),
   ("bb king", ["Gibson", "Epiphone"]),
   ("slash", ["Gibson", "Epiphone"]),
   ("eddie van halen", ["EVH", "Fender", "Charvel", "Kramer"]),
   ("john mayer", ["Fender", "PRS", "Martin"]),
   ("george benson", ["Ibanez", "Gibson"]),
   ("kurt cobain", ["Fender", "Gibson"])]

/-- The fields of a `GENRE_GUITARS` entry read by the strategy planner. -/
structure GenreInfo where
  recommended_types : List String
  brands : List String
  deriving DecidableEq

/-- `GENRE_GUITARS`, restricted to `recommended_types` and `brands`, the
fields read by `step2_determine_search_strategy`. -/
def GENRE_GUITARS : List (String × GenreInfo) :=
  [("blues", ⟨["Stratocaster", "Les Paul", "ES-335", "Telecaster"],
              ["Fender", "Gibson", "Epiphone", "PRS"]⟩),
   ("rock", ⟨["Les Paul", "SG", "Stratocaster", "PRS Custom"],
             ["Gibson", "Fender", "PRS", "ESP", "Schecter"]⟩),
   ("metal", ⟨["Ibanez RG", "Jackson Soloist", "ESP Eclipse", "Schecter Hellraiser", "ESP LTD"],
              ["Ibanez", "Jackson", "ESP", "Schecter", "Dean", "ESP LTD", "Jackson Pro"]⟩),
   ("jazz", ⟨["ES-175", "L-5", "Hollow body", "Semi-hollow"],
             ["Gibson", "Ibanez", "Gretsch", "D\x27Angelico", "Epiphone"]⟩),
   ("country", ⟨["Telecaster", "Gretsch", "Acoustic"],
                ["Fender", "Gretsch", "Gibson", "G&L"]⟩),
   ("indie", ⟨["Jaguar", "Jazzmaster", "Mustang", "Telecaster"],
              ["Fender", "Squier", "Reverend", "G&L"]⟩),
   ("funk", ⟨["Stratocaster", "Telecaster", "Semi-hollow"],
             ["Fender", "Gibson", "PRS", "Ibanez"]⟩)]

/-- The keys of `SKILL_LEVEL_GUITARS` (the planner only tests whether
`get_skill_level_advice` finds an entry, not its contents). -/
def SKILL_LEVEL_KEYS : List String :=
  ["beginner", "intermediate", "advanced", "professional"]

/-- `GuitarKnowledgeBase.get_artist_info`: first table entry whose key is a
substring of the normalized query or vice versa; returns its brand list. -/
def get_artist_info (name : String) : Option (List String) :=
  let akey := pyKey name
  (ARTIST_GUITARS.find? (fun kv => containsCh kv.1.data akey || containsCh akey kv.1.data)).map
    (fun kv => kv.2)

/-- `GuitarKnowledgeBase.get_genre_recommendations`: same bidirectional
substring match against `GENRE_GUITARS`. -/
def get_genre_recommendations (style : String) : Option GenreInfo :=
  let gkey := pyKey style
  (GENRE_GUITARS.find? (fun kv => containsCh kv.1.data gkey || containsCh gkey kv.1.data)).map
    (fun kv => kv.2)

/-- `GuitarKnowledgeBase.get_skill_level_advice`: same bidirectional substring
match against the skill-level table; the planner only uses whether a match
exists, so the embedding returns the matched key. -/
def get_skill_level_advice (lvl : String) : Option String :=
  let lkey := pyKey lvl
  SKILL_LEVEL_KEYS.find? (fun k => containsCh k.data lkey || containsCh lkey k.data)

/-! ## Step 1: intent analysis (`step1_analyze_user_intent`) -/

/-- Lines 136-149 of `enhanced_guitar_agent.py`: the budget-flexibility
adjustment applied to the parsed analysis.  A falsy (`none` or `0`)
`budget_max` disables the whole block; a point budget (`budget_min ==
budget_max`) becomes `(max(100, int(0.8 * t)), int(1.2 * t))`; otherwise the
flexibility factor `f` (percent, default `0.2` = 20) widens the range to
`(max(100, int((1 - f) * min)), int((1 + f) * max))`. -/
def applyBudgetAdjust (a : IntentAnalysis) : IntentAnalysis :=
  match a.budget_max with
  | none => a
  | some M =>
      if M = 0 then a
      else
        let f := a.budget_flexibility.getD 20
        if a.budget_min == a.budget_max then
          { a with budget_min := some (max 100 ((M * 8) / 10)),
                   budget_max := some ((M * 12) / 10) }
        else
          let m := a.budget_min.getD 300
          { a with budget_min := some (max 100 ((m * (100 - f)) / 100)),
                   budget_max := some ((M * (100 + f)) / 100) }

/-- The hardcoded fallback analysis returned when intent extraction fails
(lines 159-166; the dict has no flexibility, artist or feature keys). -/
def fallbackAnalysis : IntentAnalysis :=
  { budget_min := some 400, budget_max := some 1200, budget_flexibility := none,
    musical_style := some "rock", skill_level := some "intermediate",
    artist_reference := none, guitar_type := some "electric", required_features := [] }

/-- `step1_analyze_user_intent`: on a successful generation + parse, apply the
budget adjustment; on any failure return the fallback analysis. -/
def step1_analyze_user_intent (r : Except PyErr IntentAnalysis) : IntentAnalysis :=
  match r with
  | Except.ok a => applyBudgetAdjust a
  | Except.error _ => fallbackAnalysis

/-! ## Step 2: search strategy (`step2_determine_search_strategy`) -/

/-- Python truthiness of an optional string. -/
def truthyS : Option String → Bool
  | none => false
  | some s => s != ""

/-- Python falsiness of the optional `brands` list (`None` or `[]`). -/
def brandsFalsy : Option (List String) → Bool
  | none => true
  | some [] => true
  | some (_ :: _) => false

/-- The hardcoded custom-shop keyword list (line 251). -/
def custom_shop_keywords : List String :=
  ["custom shop", "ash body", "pau ferro", "quartersawn", "hipshot",
   "graph tech", "gotoh", "seymour duncan"]

/-- Lines 251-252: some custom-shop keyword occurs in
`" ".join(required_features).lower()`. -/
def customShopDetected (features : List String) : Bool :=
  let joined := lowerChars (String.intercalate " " features).data
  custom_shop_keywords.any (fun k => containsCh k.data joined)

/-- The initial `search_params` dict (lines 243-247). -/
def initParams (a : IntentAnalysis) : SearchParams :=
  { min_price := a.budget_min.getD 300, max_price := a.budget_max.getD 2000,
    max_results := 25, brands := none, search_terms := none }

/-- Lines 249-261: custom-shop detection sets `brands = ["fender"]`; otherwise
a truthy artist reference that resolves in the knowledge base sets the top 3
artist brands. -/
def brandsStep (a : IntentAnalysis) (p : SearchParams) : SearchParams :=
  if customShopDetected a.required_features then { p with brands := some ["fender"] }
  else if truthyS a.artist_reference then
    match get_artist_info (a.artist_reference.getD "") with
    | some brands => { p with brands := some (brands.take 3) }
    | none => p
  else p

/-- Lines 263-269: genre targeting, only when no brands were chosen yet. -/
def genreStep (a : IntentAnalysis) (p : SearchParams) : SearchParams :=
  if truthyS a.musical_style && brandsFalsy p.brands then
    match get_genre_recommendations (a.musical_style.getD "") with
    | some gi => { p with brands := some (gi.brands.take 3),
                          search_terms := some (gi.recommended_types.take 2) }
    | none => p
  else p

/-- Lines 271-281: skill-level price clamps (beginner lowers `max_price` to at
most 800, professional raises `min_price` to at least 1000). -/
def skillStep (a : IntentAnalysis) (p : SearchParams) : SearchParams :=
  if truthyS a.skill_level && (get_skill_level_advice (a.skill_level.getD "")).isSome then
    if a.skill_level.getD "" == "beginner" then { p with max_price := min p.max_price 800 }
    else if a.skill_level.getD "" == "professional" then
      { p with min_price := max p.min_price 1000 }
    else p
  else p

/-- `step2_determine_search_strategy`: the three rule blocks applied in source
order to the initial parameters. -/
def step2_determine_search_strategy (a : IntentAnalysis) : SearchParams :=
  skillStep a (genreStep a (brandsStep a (initParams a)))

/-! ## Step 3: retrieval (`step3_search_guitars`) -/

/-- `step3_search_guitars`: first scraper attempt, on exception a second
attempt, on a second exception the empty list — never an exception. -/
def step3_search_guitars (first retry : Except PyErr (List Guitar)) : List Guitar :=
  match first with
  | Except.ok gs => gs
  | Except.error _ =>
      match retry with
      | Except.ok gs => gs
      | Except.error _ => []

/-! ## Step 4: recommendation and reconciliation (`step4_analyze_and_recommend`) -/

/-- `_titles_match` (lines 436-442): at least 60 percent of the distinct
lower-cased words of the recommendation title occur among the distinct words
of the guitar title.  `overlap >= len(rec_words) * 0.6` is embedded as
`6 * len <= 10 * overlap` (exactly equivalent on integers). -/
def titles_match (rec_title guitar_title : String) : Bool :=
  let rw := (pyWords rec_title).dedup
  let gw := (pyWords guitar_title).dedup
  let overlap := (rw.filter (fun w => gw.contains w)).length
  decide (6 * rw.length ≤ 10 * overlap)

/-- Lines 392-406: reconciliation of one generated entry against the retrieved
candidates.  The first listing whose title fuzzy-matches a truthy
`guitar_title` overwrites the entry fields; with no match a truthy
`guitar_title` is copied to `title` and everything else is kept. -/
def enhanceRec (guitars : List Guitar) (r : RecEntry) : RecEntry :=
  match guitars.find? (fun g => r.guitar_title != "" && titles_match r.guitar_title g.title) with
  | some g =>
      { r with title := some g.title, image_url := some g.image_url,
               link := some g.link, condition := some g.condition,
               source := some g.source, price := g.price }
  | none => if r.guitar_title != "" then { r with title := some r.guitar_title } else r

/-- The fixed empty-candidate response (lines 319-325). -/
def emptyGuitarRecommendation : GuitarRecommendation :=
  { user_analysis := "I understood your requirements but couldn\x27t find matching guitars in the current market.",
    recommendations := [],
    market_insights := some "No suitable guitars found. This could be due to very specific requirements or temporary market conditions.",
    alternative_suggestions := some "Consider broadening your search criteria or checking back later for new listings." }

/-- Lines 418-427: the degraded recommendation synthesized from a raw listing
when generation or parsing fails (`{**guitar, ...}` spreads all listing
fields; no `guitar_title` key is produced). -/
def basicRecFrom (g : Guitar) : RecEntry :=
  { guitar_title := "", price := g.price, title := some g.title, link := some g.link,
    image_url := some g.image_url, condition := some g.condition, source := some g.source }

/-- `step4_analyze_and_recommend`.  The boolean records whether the
text-generation client was invoked on this path.  Empty candidates short-
circuit to the fixed response before any generation call; otherwise the
generated payload is reconciled entry by entry, and on generation or parse
failure a single basic recommendation is built from the first candidate. -/
def step4_analyze_and_recommend (_query : String) (analysis : IntentAnalysis)
    (guitars : List Guitar) (llm : Except PyErr RecData) : GuitarRecommendation × Bool :=
  if guitars.isEmpty then (emptyGuitarRecommendation, false)
  else
    match llm with
    | Except.ok d =>
        ({ user_analysis := d.user_analysis,
           recommendations := d.recommendations.map (enhanceRec guitars),
           market_insights := d.market_insights,
           alternative_suggestions := d.alternative_suggestions }, true)
    | Except.error _ =>
        ({ user_analysis := "Looking for a " ++ analysis.musical_style.getD "guitar" ++
             " guitar within Budget: $" ++ toString (analysis.budget_min.getD 0) ++
             " - $" ++ toString (analysis.budget_max.getD 0) ++ " budget range.",
           recommendations := (guitars.take 1).map basicRecFrom,
           market_insights := some "Using curated guitar database for reliable recommendations.",
           alternative_suggestions := some "Consider exploring different brands or adjusting your budget for more options." }, true)

/-! ## Top level (`find_guitars_with_explanation`) -/

/-- The fixed error response of the top-level handler (lines 491-496). -/
def errorGuitarRecommendation : GuitarRecommendation :=
  { user_analysis := "I encountered an error while processing your guitar search request.",
    recommendations := [],
    market_insights := some "Technical issue occurred during search. Please try again or simplify your request.",
    alternative_suggestions := some "Try being more specific about your budget and musical style preferences." }

/-- The body of the top-level `try` block: run the four steps in order.  Each
step absorbs the failures of its own external calls, so the computation itself
throws nothing. -/
def runPipeline (env : Env) (query : String) :
    Except PyErr (GuitarRecommendation × Explanation) := do
  let analysis := step1_analyze_user_intent env.intentResult
  let _params := step2_determine_search_strategy analysis
  let guitars := step3_search_guitars env.searchResult env.searchRetryResult
  let recs := (step4_analyze_and_recommend query analysis guitars env.recResult).1
  pure (recs, { guitars_found := guitars.length, processing_complete := true, error := none })

/-- `find_guitars_with_explanation`: the top-level entry point with its
catch-all handler. -/
def find_guitars_with_explanation (env : Env) (query : String) :
    GuitarRecommendation × Explanation :=
  match runPipeline env query with
  | Except.ok out => out
  | Except.error e =>
      (errorGuitarRecommendation,
       { guitars_found := 0, processing_complete := false, error := some e })

/-! ## Concrete inputs used by witnesses and counterexamples -/

/-- A raw extraction with a point budget of 1500 dollars (claim C3). -/
def c3Point1500 : IntentAnalysis :=
  ⟨some 1500, some 1500, none, none, none, none, none, []⟩

/-- A raw extraction with a point budget of 50 dollars (claim C3). -/
def c3Point50 : IntentAnalysis :=
  ⟨some 50, some 50, none, none, none, none, none, []⟩

/-- A raw extraction with a point budget of 50 dollars (claim C9). -/
def c9Point50 : IntentAnalysis :=
  ⟨some 50, some 50, none, none, none, none, none, []⟩

/-- A well-behaved raw extraction (budget 500-1000, flexibility 20 percent)
for the amended claim C9. -/
def c9Range : IntentAnalysis :=
  ⟨some 500, some 1000, some 20, none, none, none, none, []⟩

/-! ## Claim C3: budget widening -/

/-- The budget invariant of spec section 8, property 1: ordered budgets, both
at least the 100-dollar floor hardcoded in `step1_analyze_user_intent`. -/
def budgetInvariant (x : IntentAnalysis) : Prop :=
  100 ≤ x.budget_min.getD 0 ∧ x.budget_min.getD 0 ≤ x.budget_max.getD 0 ∧
    100 ≤ x.budget_max.getD 0

/-- C3 counterexample: for the point budget 50 the claimed pure plus-minus
20 percent band would be (40, 60), but the intent analyzer clamps the lower
bound up to 100 and returns (100, 60). -/
theorem C3_counterexample :
    (step1_analyze_user_intent (Except.ok c3Point50)).budget_min = some 100 ∧
    (step1_analyze_user_intent (Except.ok c3Point50)).budget_max = some 60 ∧
    ¬ ((step1_analyze_user_intent (Except.ok c3Point50)).budget_min = some ((50 * 8) / 10)) := by
  decide

/-- C3 (amended): a nonzero point budget `t` is widened to
`(max 100 (floor (0.8 * t)), floor (1.2 * t))`, the plus-minus 20 percent band
whenever `0.8 * t` is at least the 100-dollar floor; in particular 1500 gives
(1200, 1800). -/
theorem C3_point_budget_widening (a : IntentAnalysis) (t : Nat)
    (hmin : a.budget_min = some t) (hmax : a.budget_max = some t) (ht : t ≠ 0) :
    (step1_analyze_user_intent (Except.ok a)).budget_min = some (max 100 ((t * 8) / 10)) ∧
    (step1_analyze_user_intent (Except.ok a)).budget_max = some ((t * 12) / 10) := by
  simp [step1_analyze_user_intent, applyBudgetAdjust, hmin, hmax, ht]

/-- C3 witness: the claimed concrete instance, point budget 1500 widened to
(1200, 1800). -/
theorem C3_point_budget_widening_witness :
    (step1_analyze_user_intent (Except.ok c3Point1500)).budget_min = some 1200 ∧
    (step1_analyze_user_intent (Except.ok c3Point1500)).budget_max = some 1800 := by
  have h := C3_point_budget_widening c3Point1500 1500 rfl rfl (by decide)
  simpa using h

/-! ## Claim C9: budget invariant of the intent analyzer -/

/-- C9 counterexample: the successfully-parsed point budget 50 yields
`budget_min = 100 > 60 = budget_max`, violating both the ordering and the
floor on `budget_max`. -/
theorem C9_counterexample :
    (step1_analyze_user_intent (Except.ok c9Point50)).budget_min = some 100 ∧
    (step1_analyze_user_intent (Except.ok c9Point50)).budget_max = some 60 ∧
    ¬ ((step1_analyze_user_intent (Except.ok c9Point50)).budget_min.getD 0 ≤
        (step1_analyze_user_intent (Except.ok c9Point50)).budget_max.getD 0) := by
  decide

/-- C9 (amended): the fallback path always satisfies the budget invariant, and
the parsed path satisfies it provided the raw extraction is ordered with
`budget_max` at least the 100-dollar floor and a flexibility of at most
100 percent. -/
theorem C9_budget_invariant (e : PyErr) (a : IntentAnalysis) (m M f : Nat)
    (hm : a.budget_min = some m) (hM : a.budget_max = some M)
    (hf : a.budget_flexibility.getD 20 = f)
    (hmM : m ≤ M) (h100 : 100 ≤ M) (hf100 : f ≤ 100) :
    budgetInvariant (step1_analyze_user_intent (Except.error e)) ∧
    budgetInvariant (step1_analyze_user_intent (Except.ok a)) := by
  constructor
  · show budgetInvariant fallbackAnalysis
    exact ⟨by decide, by decide, by decide⟩
  · simp only [step1_analyze_user_intent, applyBudgetAdjust, hm, hM, hf]
    have hM0 : ¬ (M = 0) := by omega
    by_cases hpt : m = M
    · subst hpt
      simp only [hM0, if_false, beq_self_eq_true, if_true, budgetInvariant]
      simp only [Option.getD_some]
      omega
    · have hne : ((some m : Option Nat) == some M) = false := by
        simp [hpt]
      simp only [hM0, if_false, hne, Bool.false_eq_true, budgetInvariant]
      simp only [Option.getD_some]
      have hdivle : (m * (100 - f)) / 100 ≤ (M * (100 + f)) / 100 :=
        Nat.div_le_div_right (Nat.mul_le_mul hmM (by omega))
      have hfloor : 100 ≤ (M * (100 + f)) / 100 := by
        rw [Nat.le_div_iff_mul_le (by omega)]
        calc 100 * 100 ≤ M * 100 := Nat.mul_le_mul_right 100 h100
          _ ≤ M * (100 + f) := Nat.mul_le_mul_left M (by omega)
      refine ⟨le_max_left _ _, max_le hfloor hdivle, hfloor⟩

/-- C9 witness: the fallback analysis (400, 1200) and a parsed range budget
500-1000 with 20 percent flexibility both satisfy the invariant. -/
theorem C9_budget_invariant_witness :
    budgetInvariant (step1_analyze_user_intent (Except.error "boom")) ∧
    budgetInvariant (step1_analyze_user_intent (Except.ok c9Range)) :=
  C9_budget_invariant "boom" c9Range 500 1000 20 rfl rfl rfl (by decide) (by decide) (by decide)

/-! ## Claim C4: the top level never raises -/

/-- C4: for every combination of external-call outcomes and every query text,
the pipeline body completes without an uncaught exception and the top-level
entry point returns exactly its result: a recommendation set plus an
explanation record. -/
theorem C4_no_exception (env : Env) (query : String) :
    ∃ recs expl, find_guitars_with_explanation env query = (recs, expl) ∧
      runPipeline env query = Except.ok (recs, expl) :=
  ⟨_, _, rfl, rfl⟩

/-! ## Claim C5: empty-candidate path -/

/-- C5: with an empty candidate list the recommender returns the fixed
empty-recommendations response and the generation client is never invoked
(the boolean component of the embedded `step4_analyze_and_recommend` records
an invocation). -/
theorem C5_empty_candidates (q : String) (a : IntentAnalysis) (llm : Except PyErr RecData) :
    step4_analyze_and_recommend q a [] llm = (emptyGuitarRecommendation, false) ∧
    emptyGuitarRecommendation.recommendations = [] :=
  ⟨rfl, rfl⟩

/-! ## Strategy-planner helper lemmas -/

/-- The brand-selection block never touches `min_price`. -/
theorem brandsStep_min_price (a : IntentAnalysis) (p : SearchParams) :
    (brandsStep a p).min_price = p.min_price := by
  unfold brandsStep
  repeat' split
  all_goals rfl

/-- The brand-selection block never touches `max_price`. -/
theorem brandsStep_max_price (a : IntentAnalysis) (p : SearchParams) :
    (brandsStep a p).max_price = p.max_price := by
  unfold brandsStep
  repeat' split
  all_goals rfl

/-- The genre block never touches `min_price`. -/
theorem genreStep_min_price (a : IntentAnalysis) (p : SearchParams) :
    (genreStep a p).min_price = p.min_price := by
  unfold genreStep
  repeat' split
  all_goals rfl

/-- The genre block never touches `max_price`. -/
theorem genreStep_max_price (a : IntentAnalysis) (p : SearchParams) :
    (genreStep a p).max_price = p.max_price := by
  unfold genreStep
  repeat' split
  all_goals rfl

/-- The skill block never touches `brands`. -/
theorem skillStep_brands (a : IntentAnalysis) (p : SearchParams) :
    (skillStep a p).brands = p.brands := by
  unfold skillStep
  repeat' split
  all_goals rfl

/-- Before the skill block, `min_price` is the budget-derived lower bound. -/
theorem preSkill_min_price (a : IntentAnalysis) :
    (genreStep a (brandsStep a (initParams a))).min_price = a.budget_min.getD 300 := by
  rw [genreStep_min_price, brandsStep_min_price]; rfl

/-- Before the skill block, `max_price` is the budget-derived upper bound. -/
theorem preSkill_max_price (a : IntentAnalysis) :
    (genreStep a (brandsStep a (initParams a))).max_price = a.budget_max.getD 2000 := by
  rw [genreStep_max_price, brandsStep_max_price]; rfl

/-- For skill level `"beginner"` the skill block clamps `max_price` down to at
most 800 and leaves `min_price` alone. -/
theorem skillStep_beginner (a : IntentAnalysis) (p : SearchParams)
    (hs : a.skill_level = some "beginner") :
    skillStep a p = { p with max_price := min p.max_price 800 } := by
  have hguard : (truthyS a.skill_level &&
      (get_skill_level_advice (a.skill_level.getD "")).isSome) = true := by
    rw [hs]; decide
  have hbeq : (a.skill_level.getD "" == "beginner") = true := by
    rw [hs]; decide
  unfold skillStep
  rw [hguard, hbeq]
  simp

/-- For skill level `"professional"` the skill block clamps `min_price` up to
at least 1000 and leaves `max_price` alone. -/
theorem skillStep_professional (a : IntentAnalysis) (p : SearchParams)
    (hs : a.skill_level = some "professional") :
    skillStep a p = { p with min_price := max p.min_price 1000 } := by
  have hguard : (truthyS a.skill_level &&
      (get_skill_level_advice (a.skill_level.getD "")).isSome) = true := by
    rw [hs]; decide
  have hbeg : (a.skill_level.getD "" == "beginner") = false := by
    rw [hs]; decide
  have hpro : (a.skill_level.getD "" == "professional") = true := by
    rw [hs]; decide
  unfold skillStep
  rw [hguard, hbeg, hpro]
  simp

/-! ## Claim C6: custom-shop brand override -/

/-- C6: whenever the required features trip the custom-shop keyword scan, the
final filter carries exactly the premium override list `["fender"]` — the
artist and genre rules cannot replace it, whatever the rest of the spec says. -/
theorem C6_custom_shop_override (a : IntentAnalysis)
    (h : customShopDetected a.required_features = true) :
    (step2_determine_search_strategy a).brands = some ["fender"] := by
  have hb : (brandsStep a (initParams a)).brands = some ["fender"] := by
    unfold brandsStep
    rw [h]
    simp
  have hg : (genreStep a (brandsStep a (initParams a))).brands = some ["fender"] := by
    unfold genreStep
    rw [hb]
    simp only [brandsFalsy, Bool.and_false, Bool.false_eq_true, if_false]
    exact hb
  unfold step2_determine_search_strategy
  rw [skillStep_brands, hg]

/-- The custom-shop scenario input of spec section 8, property 7. -/
def c6Features : IntentAnalysis :=
  ⟨none, none, none, none, none, none, none,
   ["ash body, pau ferro fretboard, Hipshot tuners"]⟩

/-- C6 witness: the spec scenario query features produce the `["fender"]`
override. -/
theorem C6_custom_shop_override_witness :
    (step2_determine_search_strategy c6Features).brands = some ["fender"] :=
  C6_custom_shop_override c6Features (by decide)

/-! ## Claim C7: skill clamps tighten prices -/

/-- C7: for a beginner the final `max_price` is the minimum of the
budget-derived bound and the 800-dollar ceiling, and for a professional the
final `min_price` is the maximum of the budget-derived bound and the
1000-dollar floor — each clamp only tightens its own bound. -/
theorem C7_skill_clamps (a : IntentAnalysis) :
    (a.skill_level = some "beginner" →
      (step2_determine_search_strategy a).max_price = min (a.budget_max.getD 2000) 800) ∧
    (a.skill_level = some "professional" →
      (step2_determine_search_strategy a).min_price = max (a.budget_min.getD 300) 1000) := by
  constructor
  · intro hs
    unfold step2_determine_search_strategy
    rw [skillStep_beginner a _ hs]
    show min (genreStep a (brandsStep a (initParams a))).max_price 800 = _
    rw [preSkill_max_price]
  · intro hs
    unfold step2_determine_search_strategy
    rw [skillStep_professional a _ hs]
    show max (genreStep a (brandsStep a (initParams a))).min_price 1000 = _
    rw [preSkill_min_price]

/-- A beginner spec whose budget-derived `max_price` is 2000 (claim C7). -/
def c7Beginner : IntentAnalysis :=
  ⟨some 300, some 2000, none, none, some "beginner", none, none, []⟩

/-- A professional spec whose budget-derived `min_price` is 300 (claim C7). -/
def c7Professional : IntentAnalysis :=
  ⟨some 300, some 2000, none, none, some "professional", none, none, []⟩

/-- C7 witness: with a pre-clamp `max_price` of 2000 the beginner filter ends
at 800, and the professional filter raises `min_price` from 300 to 1000. -/
theorem C7_skill_clamps_witness :
    (step2_determine_search_strategy c7Beginner).max_price = 800 ∧
    (step2_determine_search_strategy c7Professional).min_price = 1000 := by
  constructor
  · have h := (C7_skill_clamps c7Beginner).1 rfl
    rw [h]
    decide
  · have h := (C7_skill_clamps c7Professional).2 rfl
    rw [h]
    decide

/-! ## Claim C8: filter price ordering -/

/-- A beginner spec with a budget floor above the beginner ceiling
(claim C8). -/
def c8Beginner : IntentAnalysis :=
  ⟨some 1500, some 2000, none, none, some "beginner", none, none, []⟩

/-- C8 counterexample: for budget 1500-2000 and skill `"beginner"` the planner
returns `min_price = 1500 > 800 = max_price`, so the ordering invariant fails. -/
theorem C8_counterexample :
    (step2_determine_search_strategy c8Beginner).min_price = 1500 ∧
    (step2_determine_search_strategy c8Beginner).max_price = 800 ∧
    ¬ ((step2_determine_search_strategy c8Beginner).min_price ≤
        (step2_determine_search_strategy c8Beginner).max_price) := by
  decide

/-- C8 (amended): the filter satisfies `min_price ≤ max_price` provided the
budget-derived bounds are ordered and are compatible with the skill clamp
(beginner budgets must start at or below the 800-dollar ceiling, professional
budgets must reach the 1000-dollar floor); the skill clamps alone can invert
the ordering. -/
theorem C8_price_ordering (a : IntentAnalysis)
    (h1 : a.budget_min.getD 300 ≤ a.budget_max.getD 2000)
    (h2 : a.skill_level = some "beginner" → a.budget_min.getD 300 ≤ 800)
    (h3 : a.skill_level = some "professional" → 1000 ≤ a.budget_max.getD 2000) :
    (step2_determine_search_strategy a).min_price ≤
      (step2_determine_search_strategy a).max_price := by
  have hmin := preSkill_min_price a
  have hmax := preSkill_max_price a
  unfold step2_determine_search_strategy
  unfold skillStep
  split
  · split
    · rename_i hguard hbeg
      have hs : a.skill_level = some "beginner" := by
        rcases hsl : a.skill_level with _ | s
        · rw [hsl] at hbeg; cases hbeg
        · rw [hsl] at hbeg
          simp only [Option.getD_some, beq_iff_eq] at hbeg
          rw [hbeg]
      have h2b := h2 hs
      simp only [hmin, hmax]
      omega
    · split
      · rename_i hguard hbeg hpro
        have hs : a.skill_level = some "professional" := by
          rcases hsl : a.skill_level with _ | s
          · rw [hsl] at hpro; cases hpro
          · rw [hsl] at hpro
            simp only [Option.getD_some, beq_iff_eq] at hpro
            rw [hpro]
        have h3b := h3 hs
        simp only [hmin, hmax]
        omega
      · simp only [hmin, hmax]
        exact h1
  · simp only [hmin, hmax]
    exact h1

/-- A well-behaved beginner spec (budget 400-1200) for the amended claim C8. -/
def c8Ok : IntentAnalysis :=
  ⟨some 400, some 1200, none, none, some "beginner", none, none, []⟩

/-- C8 witness: a beginner spec with budget 400-1200 yields an ordered filter. -/
theorem C8_price_ordering_witness :
    (step2_determine_search_strategy c8Ok).min_price ≤
      (step2_determine_search_strategy c8Ok).max_price :=
  C8_price_ordering c8Ok (by decide) (fun _ => by decide)
    (fun h => absurd h (by decide))

/-! ## Claim C1: reconciliation overwrites matching entries -/

/-- C1: any generated entry with a truthy stated title that fuzzy-matches some
candidate listing is overwritten with the (first) matching listing: its title,
price, link, image URL, condition and source all become that listing's values. -/
theorem C1_reconciliation_overwrites (guitars : List Guitar) (r : RecEntry)
    (hne : r.guitar_title ≠ "")
    (hex : ∃ g ∈ guitars, titles_match r.guitar_title g.title = true) :
    ∃ g ∈ guitars, titles_match r.guitar_title g.title = true ∧
      enhanceRec guitars r =
        { r with title := some g.title, image_url := some g.image_url,
                 link := some g.link, condition := some g.condition,
                 source := some g.source, price := g.price } := by
  have hb : (r.guitar_title != "") = true := bne_iff_ne.mpr hne
  have hsome : (guitars.find?
      (fun g => r.guitar_title != "" && titles_match r.guitar_title g.title)).isSome := by
    rw [List.find?_isSome]
    obtain ⟨g0, hg0, hp0⟩ := hex
    exact ⟨g0, hg0, by simp [hb, hp0]⟩
  obtain ⟨g, hg⟩ := Option.isSome_iff_exists.mp hsome
  refine ⟨g, List.mem_of_find?_eq_some hg, ?_, ?_⟩
  · have hp := List.find?_some hg
    simpa [hb] using hp
  · unfold enhanceRec
    rw [hg]

/-- The reconciliation-scenario listing of spec section 8, property 9. -/
def c1Listing : Guitar :=
  ⟨"Fender Player Stratocaster - 3-Color Sunburst", 899, "Excellent",
   "https://www.fender.com/cdn/assets/models/instruments/carousel/0144502500_fen_ins_crl_frt_1_rr.jpg",
   "https://www.fender.com/en-US/electric-guitars/stratocaster/player-stratocaster/",
   "Fender"⟩

/-- The reconciliation-scenario generated entry (generator-claimed price 925). -/
def c1Entry : RecEntry := ⟨"Fender Player Strat Sunburst", 925, none, none, none, none, none⟩

/-- C1 witness: the spec scenario — the entry titled
"Fender Player Strat Sunburst" matches the candidate
"Fender Player Stratocaster - 3-Color Sunburst" (3 of 4 distinct words,
75 percent at least 60 percent) and is overwritten with its exact price and
link. -/
theorem C1_reconciliation_overwrites_witness :
    ∃ g ∈ [c1Listing], titles_match c1Entry.guitar_title g.title = true ∧
      enhanceRec [c1Listing] c1Entry =
        { c1Entry with title := some g.title, image_url := some g.image_url,
                       link := some g.link, condition := some g.condition,
                       source := some g.source, price := g.price } :=
  C1_reconciliation_overwrites [c1Listing] c1Entry (by decide)
    ⟨c1Listing, List.mem_singleton_self c1Listing, by decide⟩

/-! ## Claim C10: whitespace-only titles match everything -/

/-- C10: a recommendation title with no words (for example a whitespace-only
string, which passes the truthiness guard) fuzzy-matches every listing title,
because the acceptance test degenerates to `0 >= 0`; such an entry is bound to
the first candidate and inherits its title, price and link. -/
theorem C10_whitespace_title_matches_first (g : Guitar) (gs : List Guitar) (r : RecEntry)
    (hne : r.guitar_title ≠ "") (hw : pyWords r.guitar_title = []) :
    titles_match r.guitar_title g.title = true ∧
    enhanceRec (g :: gs) r =
      { r with title := some g.title, image_url := some g.image_url,
               link := some g.link, condition := some g.condition,
               source := some g.source, price := g.price } := by
  have hb : (r.guitar_title != "") = true := bne_iff_ne.mpr hne
  have hm : titles_match r.guitar_title g.title = true := by
    unfold titles_match
    rw [hw]
    simp
  have hfind : (g :: gs).find?
      (fun x => r.guitar_title != "" && titles_match r.guitar_title x.title) = some g :=
    List.find?_cons_of_pos _ (by simp [hb, hm])
  refine ⟨hm, ?_⟩
  unfold enhanceRec
  rw [hfind]

/-- A generated entry whose stated title is a single space (claim C10). -/
def c10Entry : RecEntry := ⟨" ", 777, none, none, none, none, none⟩

/-- First candidate listing of the C10 witness. -/
def c10First : Guitar :=
  ⟨"Gibson Les Paul Studio - Ebony", 1599, "Very Good",
   "https://www.gibson.com/media/catalog/product/l/p/lpst00ebch_main_01.png",
   "https://www.gibson.com/en-US/Guitar/Les-Paul-Studio", "Gibson"⟩

/-- Second candidate listing of the C10 witness. -/
def c10Second : Guitar :=
  ⟨"PRS SE Custom 24 - Vintage Sunburst", 929, "Excellent",
   "https://images.reverb.com/image/upload/prs-se-24.jpg",
   "https://reverb.com/item/12345-prs-se-custom-24", "Reverb"⟩

/-- C10 witness: the whitespace-titled entry matches the first of two
candidates and inherits all its fields. -/
theorem C10_whitespace_title_matches_first_witness :
    titles_match c10Entry.guitar_title c10First.title = true ∧
    enhanceRec (c10First :: [c10Second]) c10Entry =
      { c10Entry with title := some c10First.title, image_url := some c10First.image_url,
                      link := some c10First.link, condition := some c10First.condition,
                      source := some c10First.source, price := c10First.price } :=
  C10_whitespace_title_matches_first c10First [c10Second] c10Entry (by decide) (by decide)

/-! ## Claim C2: the no-fabricated-listing invariant -/

/-- The generated entries carried into the reconciliation loop. -/
def recListOf : Except PyErr RecData → List RecEntry
  | Except.ok d => d.recommendations
  | Except.error _ => []

/-- The claimed invariant: the entry carries the title, price and link triple
of some listing of the retrieval batch. -/
def boundToListing (guitars : List Guitar) (r : RecEntry) : Prop :=
  ∃ g ∈ guitars, r.title = some g.title ∧ r.price = g.price ∧ r.link = some g.link

instance (guitars : List Guitar) (r : RecEntry) : Decidable (boundToListing guitars r) := by
  unfold boundToListing
  infer_instance

/-- The only candidate listing of the C2 counterexample run. -/
def c2Listing : Guitar :=
  ⟨"Gibson Les Paul Studio - Ebony", 1599, "Very Good",
   "https://www.gibson.com/media/catalog/product/l/p/lpst00ebch_main_01.png",
   "https://www.gibson.com/en-US/Guitar/Les-Paul-Studio", "Gibson"⟩

/-- A generated entry naming a guitar absent from the batch, with a
generator-invented price (claim C2). -/
def c2GenEntry : RecEntry := ⟨"Ibanez RG550 Desert Yellow", 1099, none, none, none, none, none⟩

/-- The parsed generation payload of the C2 counterexample run. -/
def c2RecData : RecData := ⟨"You want a shred machine.", [c2GenEntry], none, none⟩

/-- C2 counterexample: an unmatched generated entry is carried through with
the generator-invented title and price (no listing of the batch has that
triple), and the produced record carries no unreconciled flag of any kind —
its fields are exactly those of a reconciled record. -/
theorem C2_counterexample :
    ∃ r ∈ (step4_analyze_and_recommend "q" fallbackAnalysis [c2Listing]
        (Except.ok c2RecData)).1.recommendations,
      ¬ boundToListing [c2Listing] r ∧
        r.title = some "Ibanez RG550 Desert Yellow" ∧ r.price = 1099 := by
  decide

/-- C2 (amended): every entry of a non-empty result either carries all six
fields of some listing of the batch, or is a generated entry carried through
unchanged except that its own stated title is copied into `title` — the
generator-invented price survives and no field marks the entry as
unreconciled. -/
theorem C2_reconciliation_dichotomy (q : String) (a : IntentAnalysis)
    (guitars : List Guitar) (llm : Except PyErr RecData) (r : RecEntry)
    (hr : r ∈ (step4_analyze_and_recommend q a guitars llm).1.recommendations) :
    (∃ g ∈ guitars, r.title = some g.title ∧ r.price = g.price ∧ r.link = some g.link ∧
        r.image_url = some g.image_url ∧ r.condition = some g.condition ∧
        r.source = some g.source) ∨
    (∃ r0 ∈ recListOf llm, r = { r0 with title := some r0.guitar_title } ∨ r = r0) := by
  cases guitars with
  | nil => simp [step4_analyze_and_recommend, emptyGuitarRecommendation] at hr
  | cons g0 gs =>
      cases llm with
      | error e =>
          have hr' : r = basicRecFrom g0 := by
            simpa [step4_analyze_and_recommend] using hr
          subst hr'
          exact Or.inl ⟨g0, List.mem_cons_self g0 gs, rfl, rfl, rfl, rfl, rfl, rfl⟩
      | ok d =>
          have hr' : r ∈ d.recommendations.map (enhanceRec (g0 :: gs)) := by
            simpa [step4_analyze_and_recommend] using hr
          obtain ⟨r0, hr0, rfl⟩ := List.mem_map.mp hr'
          cases hfind : (g0 :: gs).find?
              (fun g => r0.guitar_title != "" && titles_match r0.guitar_title g.title) with
          | some g =>
              have he : enhanceRec (g0 :: gs) r0 =
                  { r0 with title := some g.title, image_url := some g.image_url,
                            link := some g.link, condition := some g.condition,
                            source := some g.source, price := g.price } := by
                unfold enhanceRec
                rw [hfind]
              rw [he]
              exact Or.inl ⟨g, List.mem_of_find?_eq_some hfind, rfl, rfl, rfl, rfl, rfl, rfl⟩
          | none =>
              refine Or.inr ⟨r0, hr0, ?_⟩
              unfold enhanceRec
              rw [hfind]
              cases hB : (r0.guitar_title != "") with
              | true => simp [hB]
              | false => simp [hB]

/-- C2 witness: in the counterexample run the single output entry falls into
the carried-through-unreconciled branch of the dichotomy. -/
theorem C2_reconciliation_dichotomy_witness :
    (∃ g ∈ [c2Listing], (enhanceRec [c2Listing] c2GenEntry).title = some g.title ∧
        (enhanceRec [c2Listing] c2GenEntry).price = g.price ∧
        (enhanceRec [c2Listing] c2GenEntry).link = some g.link ∧
        (enhanceRec [c2Listing] c2GenEntry).image_url = some g.image_url ∧
        (enhanceRec [c2Listing] c2GenEntry).condition = some g.condition ∧
        (enhanceRec [c2Listing] c2GenEntry).source = some g.source) ∨
    (∃ r0 ∈ recListOf (Except.ok c2RecData),
        enhanceRec [c2Listing] c2GenEntry = { r0 with title := some r0.guitar_title } ∨
        enhanceRec [c2Listing] c2GenEntry = r0) :=
  C2_reconciliation_dichotomy "q" fallbackAnalysis [c2Listing] (Except.ok c2RecData)
    (enhanceRec [c2Listing] c2GenEntry) (by decide)
